import Mathlib

/-!
Verification of the paper-trading settlement and risk-gated order-routing
subsystem of Ultimate-Trader.

Shallow embedding conventions:
- currency amounts and prices are exact rationals (`ℚ`);
- a Python `dict` is an insertion-ordered association list with unique keys,
  with `lookupKey` / `setKey` / `eraseKey` as the dict operations;
- fallible operations return `Option`;
- wall-clock timestamps and log output are dropped (they carry no state the
  claims mention); uuid-generated trade ids are taken as parameters.
-/

namespace UltimateTrader

/-! ## Association-list model of Python dicts -/

def lookupKey {α : Type} : List (String × α) → String → Option α
  | [], _ => none
  | kv :: rest, k => if kv.1 = k then some kv.2 else lookupKey rest k

def replaceKey {α : Type} : List (String × α) → String → α → List (String × α)
  | [], _, _ => []
  | kv :: rest, k, v => if kv.1 = k then (k, v) :: replaceKey rest k v else kv :: replaceKey rest k v

/-- Model of `d[k] = v` on a Python dict: replace if present, else append. -/
def setKey {α : Type} (m : List (String × α)) (k : String) (v : α) : List (String × α) :=
  if (lookupKey m k).isSome then replaceKey m k v else m ++ [(k, v)]

/-- Model of `del d[k]` on a Python dict. -/
def eraseKey {α : Type} : List (String × α) → String → List (String × α)
  | [], _ => []
  | kv :: rest, k => if kv.1 = k then eraseKey rest k else kv :: eraseKey rest k

theorem lookupKey_replaceKey_self {α : Type} (m : List (String × α)) (k : String) (v : α)
    (h : (lookupKey m k).isSome) : lookupKey (replaceKey m k v) k = some v := by
  induction m with
  | nil => simp [lookupKey] at h
  | cons kv rest ih =>
    by_cases hk : kv.1 = k
    · simp [replaceKey, lookupKey, hk]
    · simp [replaceKey, lookupKey, hk] at h ⊢
      exact ih h

theorem lookupKey_append_of_none {α : Type} (m m₂ : List (String × α)) (k : String)
    (h : lookupKey m k = none) : lookupKey (m ++ m₂) k = lookupKey m₂ k := by
  induction m with
  | nil => simp
  | cons kv rest ih =>
    by_cases hk : kv.1 = k
    · simp [lookupKey, hk] at h
    · simp [lookupKey, hk] at h ⊢
      exact ih h

theorem lookupKey_setKey_self {α : Type} (m : List (String × α)) (k : String) (v : α) :
    lookupKey (setKey m k v) k = some v := by
  unfold setKey
  by_cases h : (lookupKey m k).isSome
  · simp [h, lookupKey_replaceKey_self m k v h]
  · simp [h]
    have hnone : lookupKey m k = none := by
      cases hval : lookupKey m k
      · rfl
      · simp [hval] at h
    rw [lookupKey_append_of_none m _ k hnone]
    simp [lookupKey]

theorem mem_replaceKey {α : Type} (m : List (String × α)) (k : String) (v : α)
    (kv : String × α) (h : kv ∈ replaceKey m k v) : kv ∈ m ∨ kv = (k, v) := by
  induction m with
  | nil => simp [replaceKey] at h
  | cons hd rest ih =>
    by_cases hk : hd.1 = k
    · simp [replaceKey, hk] at h
      rcases h with h | h
      · right; exact h
      · rcases ih h with h2 | h2
        · left; simp [h2]
        · right; exact h2
    · simp [replaceKey, hk] at h
      rcases h with h | h
      · left; simp [h]
      · rcases ih h with h2 | h2
        · left; simp [h2]
        · right; exact h2

theorem mem_setKey {α : Type} (m : List (String × α)) (k : String) (v : α)
    (kv : String × α) (h : kv ∈ setKey m k v) : kv ∈ m ∨ kv = (k, v) := by
  unfold setKey at h
  by_cases hc : (lookupKey m k).isSome
  · simp [hc] at h
    exact mem_replaceKey m k v kv h
  · simp [hc] at h
    rcases h with h | h
    · left; exact h
    · right; simp [h]

theorem lookupKey_eraseKey_self {α : Type} (m : List (String × α)) (k : String) :
    lookupKey (eraseKey m k) k = none := by
  induction m with
  | nil => simp [eraseKey, lookupKey]
  | cons kv rest ih =>
    by_cases hk : kv.1 = k
    · simp [eraseKey, hk, ih]
    · simp [eraseKey, hk, lookupKey, ih]

/-! ## Virtual Wallet (src/core/paper_trading/wallet.py) -/

def STARTING_BALANCE : ℚ := 50

/-- Embeds `PaperPosition` (wall-clock timestamps dropped). -/
structure PaperPosition where
  position_id : String
  condition_id : String
  token_id : String
  market_name : String
  outcome : String
  shares : ℚ
  entry_price : ℚ
  total_cost : ℚ
  strategy : String
  current_price : ℚ := 0
  pnl : ℚ := 0
  pnl_pct : ℚ := 0
  status : String := "open"
  close_price : Option ℚ := none
deriving Repr, DecidableEq

/-- Embeds `PaperPosition.update_price`. -/
def PaperPosition.update_price (p : PaperPosition) (new_price : ℚ) : PaperPosition :=
  { p with
    current_price := new_price
    pnl := (new_price - p.entry_price) * p.shares
    pnl_pct := if p.entry_price > 0 then (new_price - p.entry_price) / p.entry_price * 100 else p.pnl_pct }

/-- Embeds `PaperPosition.close`: returns the realized P&L and the mutated position. -/
def PaperPosition.close (p : PaperPosition) (close_price : ℚ) : ℚ × PaperPosition :=
  let pnl := (close_price - p.entry_price) * p.shares
  (pnl, { p with close_price := some close_price, pnl := pnl, status := "closed" })

/-- Embeds `PaperTrade` (timestamp dropped). -/
structure PaperTrade where
  trade_id : String
  strategy : String
  market_name : String
  side : String
  shares : ℚ
  price : ℚ
  total : ℚ
  balance_before : ℚ
  balance_after : ℚ
deriving Repr, DecidableEq

/-- Embeds the mutable state of `PaperWallet`. -/
structure PaperWallet where
  balance : ℚ
  initial_balance : ℚ
  positions : List (String × PaperPosition)
  trades : List PaperTrade
  realized_pnl : ℚ
deriving Repr, DecidableEq

/-- Fresh wallet state as built by `PaperWallet.__init__` before `_load`. -/
def defaultWallet : PaperWallet :=
  { balance := STARTING_BALANCE
    initial_balance := STARTING_BALANCE
    positions := []
    trades := []
    realized_pnl := 0 }

/-- Embeds `PaperWallet.can_buy`. -/
def PaperWallet.can_buy (w : PaperWallet) (amount_usdc : ℚ) : Bool × String :=
  if amount_usdc > w.balance then (false, "Insufficient balance")
  else if amount_usdc < 1/100 then (false, "Amount too small")
  else (true, "")

/-- Embeds `PaperWallet.execute_buy`: returns the position (or `none` on
rejection) together with the wallet state after the call. -/
def PaperWallet.execute_buy (w : PaperWallet)
    (condition_id token_id market_name outcome : String)
    (shares price : ℚ) (strategy trade_id : String) :
    Option PaperPosition × PaperWallet :=
  let cost := shares * price
  if (w.can_buy cost).1 then
    let position_id := condition_id ++ "-" ++ token_id
    let balance_before := w.balance
    let new_balance := w.balance - cost
    let fresh : PaperPosition :=
      { position_id := position_id
        condition_id := condition_id
        token_id := token_id
        market_name := market_name
        outcome := outcome
        shares := shares
        entry_price := price
        total_cost := cost
        strategy := strategy
        current_price := price }
    let stepped : PaperPosition × List (String × PaperPosition) :=
      match lookupKey w.positions position_id with
      | some existing =>
        let total_shares := existing.shares + shares
        let avg_price := (existing.total_cost + cost) / total_shares
        let merged := { existing with
          shares := total_shares
          entry_price := avg_price
          total_cost := total_shares * avg_price }
        (merged, setKey w.positions position_id merged)
      | none => (fresh, setKey w.positions position_id fresh)
    let trade : PaperTrade :=
      { trade_id := trade_id
        strategy := strategy
        market_name := market_name
        side := "BUY"
        shares := shares
        price := price
        total := cost
        balance_before := balance_before
        balance_after := new_balance }
    (some stepped.1,
      { w with
        balance := new_balance
        positions := stepped.2
        trades := w.trades ++ [trade] })
  else
    (none, w)

/-- Embeds `PaperWallet.execute_sell`: returns the realized P&L together with
the wallet state after the call. -/
def PaperWallet.execute_sell (w : PaperWallet)
    (position_id : String) (price : ℚ) (strategy trade_id : String) :
    ℚ × PaperWallet :=
  match lookupKey w.positions position_id with
  | none => (0, w)
  | some pos =>
    let balance_before := w.balance
    let proceeds := pos.shares * price
    let realized_pnl := (pos.close price).1
    let new_balance := w.balance + proceeds
    let trade : PaperTrade :=
      { trade_id := trade_id
        strategy := strategy
        market_name := pos.market_name
        side := "SELL"
        shares := pos.shares
        price := price
        total := proceeds
        balance_before := balance_before
        balance_after := new_balance }
    (realized_pnl,
      { w with
        balance := new_balance
        realized_pnl := w.realized_pnl + realized_pnl
        trades := w.trades ++ [trade]
        positions := eraseKey w.positions position_id })

/-- Embeds `PaperWallet.win_rate`. -/
def PaperWallet.win_rate (w : PaperWallet) : ℚ :=
  let sells := w.trades.filter (fun t => t.side == "SELL")
  if sells.isEmpty then 0
  else
    let wins := sells.countP (fun sell =>
      let buys := w.trades.filter (fun t => t.side == "BUY" && t.market_name == sell.market_name)
      if buys.isEmpty then false
      else decide (sell.price > (buys.map PaperTrade.price).sum / (buys.length : ℚ)))
    (wins : ℚ) / (sells.length : ℚ) * 100

/-! ## Wallet state loading (`PaperWallet._load`)

The on-disk JSON document is modelled field by field: a scalar field is
`none` when absent from the document (Python `dict.get` falls back to the
default), a position or trade entry is `none` when its record does not
deserialize (the `PaperPosition(**v)` / `PaperTrade(**t)` call raises).
A document that fails `json.load` altogether is modelled as `none`. -/

structure RawWalletDoc where
  balance : Option ℚ
  initial_balance : Option ℚ
  realized_pnl : Option ℚ
  positions : List (String × Option PaperPosition)
  trades : List (Option PaperTrade)

/-- Embeds the `for k, v in data.get("positions", {}).items()` loop: each
well-formed record is written into the position map; a malformed record
raises out of the loop, keeping the entries already written. The flag
reports whether the loop completed. -/
def loadPositionsLoop : PaperWallet → List (String × Option PaperPosition) → PaperWallet × Bool
  | w, [] => (w, true)
  | w, (k, some p) :: rest =>
    loadPositionsLoop { w with positions := setKey w.positions k p } rest
  | w, (_, none) :: _ => (w, false)

/-- Embeds `PaperWallet._load`: the `try` body assigns `balance`,
`initial_balance` and `realized_pnl` first, then rebuilds positions entry by
entry, then the trade list; `except Exception` swallows any failure, keeping
whatever was already assigned. -/
def PaperWallet.load (w : PaperWallet) (doc : Option RawWalletDoc) : PaperWallet :=
  match doc with
  | none => w
  | some d =>
    let w1 := { w with
      balance := d.balance.getD STARTING_BALANCE
      initial_balance := d.initial_balance.getD STARTING_BALANCE
      realized_pnl := d.realized_pnl.getD 0 }
    match loadPositionsLoop w1 d.positions with
    | (w2, false) => w2
    | (w2, true) =>
      if d.trades.all Option.isSome then
        { w2 with trades := d.trades.filterMap id }
      else w2

/-! ## Portfolio and Risk Manager (src/core/risk/portfolio.py, manager.py) -/

/-- Embeds `MarketPosition` (timestamps dropped). -/
structure MarketPosition where
  condition_id : String
  token_id : String
  market_name : String
  outcome : String
  shares : ℚ
  avg_buy_price : ℚ
  total_cost : ℚ
  strategy : String
  status : String := "open"
  pnl : ℚ := 0
deriving Repr, DecidableEq

/-- Embeds the `Portfolio` state used by the risk checks. -/
structure Portfolio where
  positions : List (String × MarketPosition)
  daily_pnl : ℚ
  total_pnl : ℚ
deriving Repr, DecidableEq

/-- Embeds `Portfolio.open_position_count`. -/
def Portfolio.open_position_count (p : Portfolio) : ℕ :=
  (p.positions.filter (fun kv => kv.2.status == "open")).length

/-- Embeds `Portfolio.total_invested`. -/
def Portfolio.total_invested (p : Portfolio) : ℚ :=
  ((p.positions.filter (fun kv => kv.2.status == "open")).map (fun kv => kv.2.total_cost)).sum

/-- Configuration values read by `RiskManager.check_new_position`. -/
structure RiskConfig where
  MAX_POSITION_USDC : ℚ
  DAILY_LOSS_LIMIT : ℚ
  MAX_OPEN_POSITIONS : ℕ
deriving Repr, DecidableEq

/-- The five `RiskError` reasons of `check_new_position`, in source order. -/
inductive RiskReason where
  | amountTooSmall
  | exceedsMaxPosition
  | maxPositionsReached
  | dailyLossLimit
  | totalCapitalAtRisk
deriving Repr, DecidableEq

/-- Embeds `RiskManager.check_new_position`; `some r` models `raise
RiskError(r)`, `none` models returning without raising. -/
def check_new_position (cfg : RiskConfig) (p : Portfolio) (amount_usdc : ℚ) :
    Option RiskReason :=
  if amount_usdc < 1/100 then some .amountTooSmall
  else if amount_usdc > cfg.MAX_POSITION_USDC then some .exceedsMaxPosition
  else if p.open_position_count ≥ cfg.MAX_OPEN_POSITIONS then some .maxPositionsReached
  else if p.daily_pnl < -cfg.DAILY_LOSS_LIMIT then some .dailyLossLimit
  else if p.total_invested + amount_usdc > cfg.MAX_POSITION_USDC * (cfg.MAX_OPEN_POSITIONS : ℚ) then
    some .totalCapitalAtRisk
  else none

/-! ## Paper Executor (src/core/paper_trading/executor.py)

The Polymarket client is modelled as a pure price function
`oracle : token_id → side → price` (0 signals unavailability), and the
executor price cache `_price_cache` as an explicit dict threaded through
the calls. -/

abbrev PriceCache := List (String × ℚ)

/-- Embeds `PaperExecutor.get_real_price`: returns the price used and the
cache after the call. -/
def get_real_price (cache : PriceCache) (oracle : String → String → ℚ)
    (token_id side : String) : ℚ × PriceCache :=
  match lookupKey cache token_id with
  | some p => (p, cache)
  | none =>
    let price := oracle token_id side
    if price > 0 then (price, setKey cache token_id price) else (price, cache)

/-- Numeric and status fields of the virtual order response dict built by
`paper_buy` / `paper_sell` / `paper_limit_order` / the dry-run branches. -/
structure ExecResponse where
  status : String
  side : String := ""
  price : ℚ := 0
  shares : ℚ := 0
  cost : ℚ := 0
  realized_pnl : ℚ := 0
  balance : ℚ := 0
  dry : Bool := false
  paper : Bool := false
deriving Repr, DecidableEq

/-- Embeds `PaperExecutor.paper_buy`: fetch the ask-side price, reject on a
non-positive price, otherwise buy `usdc_amount / price` shares through the
wallet. Returns the response (or `none`), the wallet after the call and the
cache after the call. -/
def paper_buy (cache : PriceCache) (oracle : String → String → ℚ)
    (condition_id token_id market_name outcome : String)
    (usdc_amount : ℚ) (strategy trade_id : String) (w : PaperWallet) :
    Option ExecResponse × PaperWallet × PriceCache :=
  let fetched := get_real_price cache oracle token_id "BUY"
  let real_price := fetched.1
  if real_price ≤ 0 then (none, w, fetched.2)
  else
    let shares := usdc_amount / real_price
    let stepped := w.execute_buy condition_id token_id market_name outcome
      shares real_price strategy trade_id
    match stepped.1 with
    | none => (none, stepped.2, fetched.2)
    | some _ =>
      (some { status := "PAPER_FILLED"
              price := real_price
              shares := shares
              cost := usdc_amount
              balance := stepped.2.balance
              paper := true },
        stepped.2, fetched.2)

/-- Embeds `PaperExecutor.paper_sell`: fetch the bid-side price, reject on a
non-positive price, otherwise sell through the wallet. -/
def paper_sell (cache : PriceCache) (oracle : String → String → ℚ)
    (position_id token_id strategy trade_id : String) (w : PaperWallet) :
    Option ExecResponse × PaperWallet × PriceCache :=
  let fetched := get_real_price cache oracle token_id "SELL"
  let real_price := fetched.1
  if real_price ≤ 0 then (none, w, fetched.2)
  else
    let stepped := w.execute_sell position_id real_price strategy trade_id
    (some { status := "PAPER_FILLED"
            price := real_price
            realized_pnl := stepped.1
            balance := stepped.2.balance
            paper := true },
      stepped.2, fetched.2)

/-- Embeds `PaperExecutor.paper_limit_order`: a bookkeeping artifact only,
no wallet mutation. -/
def paper_limit_order (side : String) (target_price shares : ℚ) : ExecResponse :=
  { status := "PAPER_PENDING"
    side := side
    price := target_price
    shares := shares
    paper := true }

/-! ## Smart Executor (src/core/paper_trading/smart_executor.py) -/

/-- The two configuration flags `cfg.DRY_RUN` and `cfg.PAPER_TRADE` read by
the dispatch. -/
structure TradingMode where
  DRY_RUN : Bool
  PAPER_TRADE : Bool
deriving Repr, DecidableEq

/-- Embeds `SmartExecutor.buy`: dry-run branch first, then paper, then live.
The live client response is an opaque parameter `live_resp`. -/
def SmartExecutor.buy (mode : TradingMode) (cache : PriceCache)
    (oracle : String → String → ℚ)
    (token_id condition_id market_name outcome : String)
    (usdc_amount : ℚ) (strategy trade_id : String) (w : PaperWallet)
    (live_resp : Option ExecResponse) :
    Option ExecResponse × PaperWallet × PriceCache :=
  if mode.DRY_RUN then (some { status := "DRY_RUN", dry := true }, w, cache)
  else if mode.PAPER_TRADE then
    paper_buy cache oracle condition_id token_id market_name outcome
      usdc_amount strategy trade_id w
  else (live_resp, w, cache)

/-- Embeds `SmartExecutor.sell`. -/
def SmartExecutor.sell (mode : TradingMode) (cache : PriceCache)
    (oracle : String → String → ℚ)
    (position_id token_id strategy trade_id : String) (w : PaperWallet)
    (live_resp : Option ExecResponse) :
    Option ExecResponse × PaperWallet × PriceCache :=
  if mode.DRY_RUN then (some { status := "DRY_RUN", dry := true }, w, cache)
  else if mode.PAPER_TRADE then
    paper_sell cache oracle position_id token_id strategy trade_id w
  else (live_resp, w, cache)

/-- Embeds `SmartExecutor.place_limit`. -/
def SmartExecutor.place_limit (mode : TradingMode) (cache : PriceCache)
    (side : String) (price shares : ℚ) (w : PaperWallet)
    (live_resp : Option ExecResponse) :
    Option ExecResponse × PaperWallet × PriceCache :=
  if mode.DRY_RUN then (some { status := "DRY_RUN", dry := true }, w, cache)
  else if mode.PAPER_TRADE then
    (some (paper_limit_order side price shares), w, cache)
  else (live_resp, w, cache)

/-! ## Buy sequences and invariants -/

/-- Arguments of one `execute_buy` call. -/
structure BuyOp where
  condition_id : String
  token_id : String
  market_name : String
  outcome : String
  shares : ℚ
  price : ℚ
  strategy : String
  trade_id : String
deriving Repr, DecidableEq

/-- Wallet state after one `execute_buy` call. -/
def applyBuy (w : PaperWallet) (op : BuyOp) : PaperWallet :=
  (w.execute_buy op.condition_id op.token_id op.market_name op.outcome
    op.shares op.price op.strategy op.trade_id).2

/-- Wallet state after a sequence of `execute_buy` calls. -/
def runBuys (w : PaperWallet) (ops : List BuyOp) : PaperWallet :=
  ops.foldl applyBuy w

/-- Cost-basis invariant: every open position carries
`total_cost = shares * entry_price`. -/
def WalletCostInv (w : PaperWallet) : Prop :=
  ∀ kv ∈ w.positions, kv.2.total_cost = kv.2.shares * kv.2.entry_price

/-! ## Spec-side win-rate definitions -/

/-- Modelled from the spec text of the win-rate metric: 100 times the
fraction of SELL trades whose execution price exceeds the VOLUME-WEIGHTED
average buy price of the BUY trades recorded for the same market name.
Written for comparison with the source-embedded `PaperWallet.win_rate`. -/
def win_rate_spec_vwap (w : PaperWallet) : ℚ :=
  let sells := w.trades.filter (fun t => t.side == "SELL")
  if sells.isEmpty then 0
  else
    100 * ((sells.filter (fun sell =>
      let buys := w.trades.filter (fun t => t.side == "BUY" && t.market_name == sell.market_name)
      if buys.isEmpty then false
      else decide (sell.price >
        (buys.map (fun b => b.price * b.shares)).sum / (buys.map PaperTrade.shares).sum))).length : ℚ)
      / (sells.length : ℚ)

/-- Amended spec of the win-rate metric: 100 times the fraction of SELL
trades whose execution price exceeds the UNWEIGHTED arithmetic mean of the
prices of the BUY trades recorded for the same market name (a sell with no
recorded buy for its market counts as a loss). -/
def win_rate_spec_mean (w : PaperWallet) : ℚ :=
  let sells := w.trades.filter (fun t => t.side == "SELL")
  if sells.isEmpty then 0
  else
    100 * ((sells.filter (fun sell =>
      let buys := w.trades.filter (fun t => t.side == "BUY" && t.market_name == sell.market_name)
      if buys.isEmpty then false
      else decide (sell.price > (buys.map PaperTrade.price).sum / (buys.length : ℚ)))).length : ℚ)
      / (sells.length : ℚ)

/-! ## Concrete sample data for witnesses and counterexamples -/

/-- A sample buy instruction: 10 shares at price 1. -/
def sampleOp1 : BuyOp :=
  { condition_id := "c", token_id := "t", market_name := "M", outcome := "YES"
    shares := 10, price := 1, strategy := "mm", trade_id := "b1" }

/-- A sample buy instruction on the same key: 10 shares at price 2. -/
def sampleOp2 : BuyOp :=
  { condition_id := "c", token_id := "t", market_name := "M", outcome := "YES"
    shares := 10, price := 2, strategy := "mm", trade_id := "b2" }

/-- The open position of the averaging scenario of the spec: 20 shares at
average entry price 1.50. -/
def posSample : PaperPosition :=
  { position_id := "c-t", condition_id := "c", token_id := "t", market_name := "M"
    outcome := "YES", shares := 20, entry_price := 3/2, total_cost := 30
    strategy := "mm", current_price := 3/2 }

/-- Wallet of the sell scenario of the spec: balance 20 and the 20-share
position with entry price 1.50. -/
def wSellSample : PaperWallet :=
  { balance := 20, initial_balance := 50, positions := [("c-t", posSample)]
    trades := [], realized_pnl := 0 }

/-- A 10-share position at entry price 1, used for the averaging witness. -/
def posAvgSample : PaperPosition :=
  { position_id := "c-t", condition_id := "c", token_id := "t", market_name := "M"
    outcome := "YES", shares := 10, entry_price := 1, total_cost := 10
    strategy := "mm", current_price := 1 }

/-- Wallet holding `posAvgSample`, used for the averaging witness. -/
def wAvgSample : PaperWallet :=
  { balance := 40, initial_balance := 50
    positions := [("c-t", posAvgSample)]
    trades := [], realized_pnl := 0 }

/-- Wallet of the rejection scenario of the spec: balance 20, no positions. -/
def wRejectSample : PaperWallet :=
  { balance := 20, initial_balance := 50, positions := [], trades := [], realized_pnl := 0 }

/-- An open live-ledger position of cost 10. -/
def mpSample : MarketPosition :=
  { condition_id := "c", token_id := "t", market_name := "M", outcome := "YES"
    shares := 10, avg_buy_price := 1, total_cost := 10, strategy := "mm" }

/-- An open live-ledger position of cost 95. -/
def mpSampleBig : MarketPosition :=
  { condition_id := "c2", token_id := "t2", market_name := "M2", outcome := "YES"
    shares := 100, avg_buy_price := 95/100, total_cost := 95, strategy := "mm" }

/-- A risk configuration: per-position cap 50, daily loss limit 20, at most
2 concurrent positions. -/
def cfgSample : RiskConfig :=
  { MAX_POSITION_USDC := 50, DAILY_LOSS_LIMIT := 20, MAX_OPEN_POSITIONS := 2 }

/-- Portfolio with no open positions. -/
def pEmpty : Portfolio := { positions := [], daily_pnl := 0, total_pnl := 0 }

/-- Portfolio already at the maximum concurrent-position count. -/
def pFull : Portfolio :=
  { positions := [("a", mpSample), ("b", mpSample)], daily_pnl := 0, total_pnl := 0 }

/-- Portfolio past the daily loss limit. -/
def pLoss : Portfolio := { positions := [], daily_pnl := -25, total_pnl := -25 }

/-- Portfolio whose invested capital is near the aggregate ceiling. -/
def pBig : Portfolio :=
  { positions := [("a", mpSampleBig)], daily_pnl := 0, total_pnl := 0 }

/-- Trade history that separates the source win rate from the
volume-weighted spec: one small buy at 0.10, one large buy at 0.90, one
sell at 0.60, all on market "M". -/
def w8Sample : PaperWallet :=
  { balance := 0, initial_balance := 50, positions := []
    trades :=
      [ { trade_id := "b1", strategy := "mm", market_name := "M", side := "BUY"
          shares := 1, price := 1/10, total := 1/10, balance_before := 50, balance_after := 499/10 }
      , { trade_id := "b2", strategy := "mm", market_name := "M", side := "BUY"
          shares := 100, price := 9/10, total := 90, balance_before := 499/10, balance_after := -401/10 }
      , { trade_id := "s1", strategy := "mm", market_name := "M", side := "SELL"
          shares := 101, price := 3/5, total := 303/5, balance_before := -401/10, balance_after := 101/5 } ]
    realized_pnl := 0 }

/-- On-disk wallet document whose scalar fields parse but whose first
position record is malformed: `json.load` succeeds, `PaperPosition(**v)`
raises. -/
def badDoc : RawWalletDoc :=
  { balance := some 99, initial_balance := none, realized_pnl := none
    positions := [("k", none)], trades := [] }

/-! ## Helper lemmas on the wallet operations -/

theorem can_buy_fst_true_iff (w : PaperWallet) (a : ℚ) :
    (w.can_buy a).1 = true ↔ a ≤ w.balance ∧ 1/100 ≤ a := by
  unfold PaperWallet.can_buy
  by_cases h1 : a > w.balance
  · simp only [h1, if_true]
    simp only [Bool.false_eq_true, false_iff, not_and]
    intro hle
    linarith
  · by_cases h2 : a < 1/100
    · simp only [h1, if_false, h2, if_true]
      simp only [Bool.false_eq_true, false_iff, not_and]
      intro hle
      linarith
    · simp only [h1, if_false, h2, if_true]
      simp only [true_iff]
      exact ⟨le_of_not_lt h1, le_of_not_lt h2⟩

theorem can_buy_fst_false_iff (w : PaperWallet) (a : ℚ) :
    (w.can_buy a).1 = false ↔ (a > w.balance ∨ a < 1/100) := by
  rw [← Bool.not_eq_true, can_buy_fst_true_iff]
  constructor
  · intro h
    by_cases h1 : a > w.balance
    · exact Or.inl h1
    · right
      by_contra h2
      exact h ⟨le_of_not_lt h1, le_of_not_lt h2⟩
  · rintro (h | h) ⟨hle, hge⟩
    · linarith
    · linarith

theorem execute_buy_of_can_buy_false (w : PaperWallet)
    (cid tid mn oc : String) (shares price : ℚ) (strat trid : String)
    (h : (w.can_buy (shares * price)).1 = false) :
    w.execute_buy cid tid mn oc shares price strat trid = (none, w) := by
  unfold PaperWallet.execute_buy
  simp [h]

theorem execute_buy_balance (w : PaperWallet)
    (cid tid mn oc : String) (shares price : ℚ) (strat trid : String) :
    (w.execute_buy cid tid mn oc shares price strat trid).2.balance
      = if (w.can_buy (shares * price)).1 then w.balance - shares * price else w.balance := by
  unfold PaperWallet.execute_buy
  by_cases h : (w.can_buy (shares * price)).1 = true
  · simp [h]
  · have hf : (w.can_buy (shares * price)).1 = false := by
      cases hv : (w.can_buy (shares * price)).1
      · rfl
      · exact absurd hv h
    simp [hf]

theorem applyBuy_balance_nonneg (w : PaperWallet) (op : BuyOp)
    (h : 0 ≤ w.balance) : 0 ≤ (applyBuy w op).balance := by
  unfold applyBuy
  rw [execute_buy_balance]
  by_cases hc : (w.can_buy (op.shares * op.price)).1 = true
  · rw [if_pos hc]
    have := (can_buy_fst_true_iff w (op.shares * op.price)).mp hc
    linarith [this.1]
  · rw [if_neg hc]
    exact h

theorem applyBuy_costInv (w : PaperWallet) (op : BuyOp)
    (h : WalletCostInv w) : WalletCostInv (applyBuy w op) := by
  unfold applyBuy PaperWallet.execute_buy
  by_cases hc : (w.can_buy (op.shares * op.price)).1 = true
  · simp only [hc, if_true]
    cases hl : lookupKey w.positions (op.condition_id ++ "-" ++ op.token_id) with
    | none =>
      simp only [hl]
      intro kv hkv
      simp only at hkv
      rcases mem_setKey _ _ _ _ hkv with hm | he
      · exact h kv hm
      · rw [he]
    | some existing =>
      simp only [hl]
      intro kv hkv
      simp only at hkv
      rcases mem_setKey _ _ _ _ hkv with hm | he
      · exact h kv hm
      · rw [he]
  · have hf : (w.can_buy (op.shares * op.price)).1 = false := by
      cases hv : (w.can_buy (op.shares * op.price)).1
      · rfl
      · exact absurd hv hc
    simp only [hf, Bool.false_eq_true, if_false]
    exact h

theorem execute_sell_not_found (w : PaperWallet) (pid : String) (price : ℚ)
    (s t : String) (h : lookupKey w.positions pid = none) :
    w.execute_sell pid price s t = (0, w) := by
  unfold PaperWallet.execute_sell
  simp [h]

theorem execute_sell_found_positions (w : PaperWallet) (pid : String) (price : ℚ)
    (s t : String) (pos : PaperPosition) (h : lookupKey w.positions pid = some pos) :
    (w.execute_sell pid price s t).2.positions = eraseKey w.positions pid := by
  unfold PaperWallet.execute_sell
  simp [h]

/-! ## Claim theorems -/

/-- C1: for every sequence of operations on the virtual wallet that mutate
balance only through `execute_buy` (each of which first consults `can_buy`),
starting from a non-negative balance, the wallet balance is never negative
after any operation in the sequence (every prefix of a sequence is itself a
sequence quantified over here). -/
theorem buy_sequence_solvency (w : PaperWallet) (ops : List BuyOp)
    (h : 0 ≤ w.balance) : 0 ≤ (runBuys w ops).balance := by
  induction ops generalizing w with
  | nil => simpa [runBuys] using h
  | cons op rest ih =>
    have hstep : 0 ≤ (applyBuy w op).balance := applyBuy_balance_nonneg w op h
    simpa [runBuys, List.foldl] using ih (applyBuy w op) hstep

/-- Witness for C1 at a concrete wallet and two-buy sequence. -/
theorem buy_sequence_solvency_witness :
    0 ≤ defaultWallet.balance ∧ 0 ≤ (runBuys defaultWallet [sampleOp1, sampleOp2]).balance :=
  ⟨by norm_num [defaultWallet, STARTING_BALANCE],
    buy_sequence_solvency defaultWallet [sampleOp1, sampleOp2]
      (by norm_num [defaultWallet, STARTING_BALANCE])⟩

/-- C2: after every buy of a sequence the open positions satisfy
`total_cost = shares * entry_price` (exactly, hence within any
floating-point tolerance), and a buy that targets an already-open position
with the same key sums the shares and sets the entry price to
(old_cost + new_cost) / (old_shares + new_shares). -/
theorem buy_cost_basis_invariant (w : PaperWallet) :
    (∀ ops : List BuyOp, WalletCostInv w → WalletCostInv (runBuys w ops)) ∧
    (∀ op : BuyOp, ∀ existing : PaperPosition,
      lookupKey w.positions (op.condition_id ++ "-" ++ op.token_id) = some existing →
      (w.can_buy (op.shares * op.price)).1 = true →
      ∃ merged : PaperPosition,
        lookupKey (applyBuy w op).positions (op.condition_id ++ "-" ++ op.token_id)
          = some merged ∧
        merged.shares = existing.shares + op.shares ∧
        merged.entry_price
          = (existing.total_cost + op.shares * op.price) / (existing.shares + op.shares) ∧
        merged.total_cost = merged.shares * merged.entry_price) := by
  constructor
  · intro ops
    induction ops generalizing w with
    | nil => intro h; simpa [runBuys] using h
    | cons op rest ih =>
      intro h
      have hstep := applyBuy_costInv w op h
      simpa [runBuys, List.foldl] using ih (applyBuy w op) hstep
  · intro op existing hl hc
    unfold applyBuy PaperWallet.execute_buy
    simp only [hc, if_true, hl]
    refine ⟨_, lookupKey_setKey_self _ _ _, rfl, rfl, rfl⟩

/-- Witness for C2: a 10-share position at entry 1 receives a further buy of
10 shares at price 2; the merged position has 20 shares at entry 1.50 and a
consistent cost basis. -/
theorem buy_cost_basis_invariant_witness :
    WalletCostInv (runBuys wAvgSample [sampleOp2]) ∧
    (∃ merged : PaperPosition,
      lookupKey (applyBuy wAvgSample sampleOp2).positions
        (sampleOp2.condition_id ++ "-" ++ sampleOp2.token_id) = some merged ∧
      merged.shares = posAvgSample.shares + sampleOp2.shares ∧
      merged.entry_price
        = (posAvgSample.total_cost + sampleOp2.shares * sampleOp2.price)
          / (posAvgSample.shares + sampleOp2.shares) ∧
      merged.total_cost = merged.shares * merged.entry_price) :=
  ⟨(buy_cost_basis_invariant wAvgSample).1 [sampleOp2]
      (by norm_num [WalletCostInv, wAvgSample, posAvgSample]),
    (buy_cost_basis_invariant wAvgSample).2 sampleOp2 posAvgSample
      (by simp [wAvgSample, sampleOp2, lookupKey])
      (by norm_num [PaperWallet.can_buy, wAvgSample, sampleOp2])⟩

/-- C3: `can_buy` fails exactly when the notional exceeds the balance or is
below the 0.01 dust threshold, and a failed check makes `execute_buy` return
`none` with the entire wallet state unchanged (balance, positions, trades and
realized P&L identical, no trade appended). -/
theorem can_buy_failure_no_mutation (w : PaperWallet)
    (cid tid mn oc : String) (shares price : ℚ) (strat trid : String) :
    ((w.can_buy (shares * price)).1 = false ↔
      (shares * price > w.balance ∨ shares * price < 1/100)) ∧
    ((w.can_buy (shares * price)).1 = false →
      w.execute_buy cid tid mn oc shares price strat trid = (none, w)) :=
  ⟨can_buy_fst_false_iff w (shares * price),
    execute_buy_of_can_buy_false w cid tid mn oc shares price strat trid⟩

/-- Witness for C3 at the rejection scenario of the spec: balance 20, buy
costing 25. -/
theorem can_buy_failure_no_mutation_witness :
    ((wRejectSample.can_buy ((25 : ℚ) * 1)).1 = false ↔
      ((25 : ℚ) * 1 > wRejectSample.balance ∨ (25 : ℚ) * 1 < 1/100)) ∧
    wRejectSample.execute_buy "c" "t" "M" "YES" 25 1 "mm" "b1" = (none, wRejectSample) :=
  ⟨(can_buy_failure_no_mutation wRejectSample "c" "t" "M" "YES" 25 1 "mm" "b1").1,
    (can_buy_failure_no_mutation wRejectSample "c" "t" "M" "YES" 25 1 "mm" "b1").2
      (by norm_num [PaperWallet.can_buy, wRejectSample])⟩

/-- C4: selling an open position of `q` shares and entry price `e` at price
`p` credits the balance by exactly `q * p`, returns and accumulates a
realized P&L of exactly `(p - e) * q`, removes the position from the open
set, and appends one SELL trade record. -/
theorem execute_sell_closes_position (w : PaperWallet) (position_id : String)
    (price : ℚ) (strat trid : String) (pos : PaperPosition)
    (h : lookupKey w.positions position_id = some pos) :
    (w.execute_sell position_id price strat trid).1
      = (price - pos.entry_price) * pos.shares ∧
    (w.execute_sell position_id price strat trid).2.balance
      = w.balance + pos.shares * price ∧
    (w.execute_sell position_id price strat trid).2.realized_pnl
      = w.realized_pnl + (price - pos.entry_price) * pos.shares ∧
    lookupKey (w.execute_sell position_id price strat trid).2.positions position_id
      = none ∧
    (w.execute_sell position_id price strat trid).2.trades
      = w.trades ++
        [{ trade_id := trid, strategy := strat, market_name := pos.market_name
           side := "SELL", shares := pos.shares, price := price
           total := pos.shares * price, balance_before := w.balance
           balance_after := w.balance + pos.shares * price }] := by
  refine ⟨?_, ?_, ?_, ?_, ?_⟩
  · unfold PaperWallet.execute_sell
    simp [h, PaperPosition.close]
  · unfold PaperWallet.execute_sell
    simp [h]
  · unfold PaperWallet.execute_sell
    simp [h, PaperPosition.close]
  · rw [execute_sell_found_positions w position_id price strat trid pos h]
    exact lookupKey_eraseKey_self _ _
  · unfold PaperWallet.execute_sell
    simp [h]

/-- Witness for C4 at the sell scenario of the spec: selling the 20-share
position with entry 1.50 at price 1.80 from balance 20 yields realized P&L
+6.00 and balance 56, the position gone and one SELL trade recorded. -/
theorem execute_sell_closes_position_witness :
    (wSellSample.execute_sell "c-t" (9/5) "mm" "s1").1 = 6 ∧
    (wSellSample.execute_sell "c-t" (9/5) "mm" "s1").2.balance = 56 ∧
    (wSellSample.execute_sell "c-t" (9/5) "mm" "s1").2.realized_pnl = 6 ∧
    lookupKey (wSellSample.execute_sell "c-t" (9/5) "mm" "s1").2.positions "c-t" = none ∧
    (wSellSample.execute_sell "c-t" (9/5) "mm" "s1").2.trades.length = 1 := by
  have h := execute_sell_closes_position wSellSample "c-t" (9/5) "mm" "s1" posSample
    (by simp [wSellSample, lookupKey])
  refine ⟨?_, ?_, ?_, h.2.2.2.1, ?_⟩
  · rw [h.1]; norm_num [posSample]
  · rw [h.2.1]; norm_num [wSellSample, posSample]
  · rw [h.2.2.1]; norm_num [wSellSample, posSample]
  · rw [h.2.2.2.2]; simp [wSellSample]

/-- C6: selling an unknown position key returns zero P&L and mutates
nothing; hence after a sell that fully closes a position, a second sell of
the same key returns zero P&L and leaves the wallet unchanged. -/
theorem unknown_sell_noop (w : PaperWallet) (position_id : String)
    (p1 p2 : ℚ) (s1 t1 s2 t2 : String) :
    (lookupKey w.positions position_id = none →
      w.execute_sell position_id p1 s1 t1 = (0, w)) ∧
    (∀ pos : PaperPosition, lookupKey w.positions position_id = some pos →
      (w.execute_sell position_id p1 s1 t1).2.execute_sell position_id p2 s2 t2
        = (0, (w.execute_sell position_id p1 s1 t1).2)) := by
  constructor
  · exact execute_sell_not_found w position_id p1 s1 t1
  · intro pos h
    apply execute_sell_not_found
    rw [execute_sell_found_positions w position_id p1 s1 t1 pos h]
    exact lookupKey_eraseKey_self _ _

/-- Witness for C6: a sell of an unknown key is a no-op, and a second sell
after a full close is a no-op. -/
theorem unknown_sell_noop_witness :
    wSellSample.execute_sell "zz" (9/5) "mm" "s1" = (0, wSellSample) ∧
    (wSellSample.execute_sell "c-t" (9/5) "mm" "s1").2.execute_sell "c-t" 1 "mm" "s2"
      = (0, (wSellSample.execute_sell "c-t" (9/5) "mm" "s1").2) :=
  ⟨(unknown_sell_noop wSellSample "zz" (9/5) 1 "mm" "s1" "mm" "s2").1
      (by simp [wSellSample, lookupKey]),
    (unknown_sell_noop wSellSample "c-t" (9/5) 1 "mm" "s1" "mm" "s2").2 posSample
      (by simp [wSellSample, lookupKey])⟩

/-- C5: `check_new_position` evaluates its five checks strictly in the order
amount-too-small, per-position cap, max concurrent positions, daily loss
limit, aggregate capital-at-risk, rejecting with the reason of the first
violated check; in particular a portfolio at the max concurrent-position
count rejects with the max-positions reason for every notional within
[minimum, per-position cap]. -/
theorem check_new_position_order (cfg : RiskConfig) (p : Portfolio) (n : ℚ) :
    (n < 1/100 → check_new_position cfg p n = some .amountTooSmall) ∧
    (¬ n < 1/100 → n > cfg.MAX_POSITION_USDC →
      check_new_position cfg p n = some .exceedsMaxPosition) ∧
    (¬ n < 1/100 → ¬ n > cfg.MAX_POSITION_USDC →
      p.open_position_count ≥ cfg.MAX_OPEN_POSITIONS →
      check_new_position cfg p n = some .maxPositionsReached) ∧
    (¬ n < 1/100 → ¬ n > cfg.MAX_POSITION_USDC →
      ¬ p.open_position_count ≥ cfg.MAX_OPEN_POSITIONS →
      p.daily_pnl < -cfg.DAILY_LOSS_LIMIT →
      check_new_position cfg p n = some .dailyLossLimit) ∧
    (¬ n < 1/100 → ¬ n > cfg.MAX_POSITION_USDC →
      ¬ p.open_position_count ≥ cfg.MAX_OPEN_POSITIONS →
      ¬ p.daily_pnl < -cfg.DAILY_LOSS_LIMIT →
      p.total_invested + n > cfg.MAX_POSITION_USDC * (cfg.MAX_OPEN_POSITIONS : ℚ) →
      check_new_position cfg p n = some .totalCapitalAtRisk) ∧
    (¬ n < 1/100 → ¬ n > cfg.MAX_POSITION_USDC →
      ¬ p.open_position_count ≥ cfg.MAX_OPEN_POSITIONS →
      ¬ p.daily_pnl < -cfg.DAILY_LOSS_LIMIT →
      ¬ p.total_invested + n > cfg.MAX_POSITION_USDC * (cfg.MAX_OPEN_POSITIONS : ℚ) →
      check_new_position cfg p n = none) ∧
    (p.open_position_count ≥ cfg.MAX_OPEN_POSITIONS → 1/100 ≤ n →
      n ≤ cfg.MAX_POSITION_USDC →
      check_new_position cfg p n = some .maxPositionsReached) := by
  refine ⟨?_, ?_, ?_, ?_, ?_, ?_, ?_⟩
  · intro h1
    unfold check_new_position
    rw [if_pos h1]
  · intro h1 h2
    unfold check_new_position
    rw [if_neg h1, if_pos h2]
  · intro h1 h2 h3
    unfold check_new_position
    rw [if_neg h1, if_neg h2, if_pos h3]
  · intro h1 h2 h3 h4
    unfold check_new_position
    rw [if_neg h1, if_neg h2, if_neg h3, if_pos h4]
  · intro h1 h2 h3 h4 h5
    unfold check_new_position
    rw [if_neg h1, if_neg h2, if_neg h3, if_neg h4, if_pos h5]
  · intro h1 h2 h3 h4 h5
    unfold check_new_position
    rw [if_neg h1, if_neg h2, if_neg h3, if_neg h4, if_neg h5]
  · intro h3 hlo hhi
    unfold check_new_position
    rw [if_neg (not_lt.mpr hlo), if_neg (not_lt.mpr hhi), if_pos h3]

/-- Witness for C5: each of the seven conjuncts instantiated at a concrete
configuration and portfolio that triggers exactly it. -/
theorem check_new_position_order_witness :
    check_new_position cfgSample pEmpty (1/200) = some .amountTooSmall ∧
    check_new_position cfgSample pEmpty 60 = some .exceedsMaxPosition ∧
    check_new_position cfgSample pFull 10 = some .maxPositionsReached ∧
    check_new_position cfgSample pLoss 10 = some .dailyLossLimit ∧
    check_new_position cfgSample pBig 10 = some .totalCapitalAtRisk ∧
    check_new_position cfgSample pEmpty 10 = none ∧
    check_new_position cfgSample pFull 10 = some .maxPositionsReached := by
  have hcount_pFull : pFull.open_position_count = 2 := by
    simp [pFull, Portfolio.open_position_count, mpSample, List.filter]
  have hcount_pEmpty : pEmpty.open_position_count = 0 := by
    simp [pEmpty, Portfolio.open_position_count, List.filter]
  have hcount_pBig : pBig.open_position_count = 1 := by
    simp [pBig, Portfolio.open_position_count, mpSampleBig, List.filter]
  have hcount_pLoss : pLoss.open_position_count = 0 := by
    simp [pLoss, Portfolio.open_position_count, List.filter]
  have hinv_pBig : pBig.total_invested = 95 := by
    simp [pBig, Portfolio.total_invested, mpSampleBig, List.filter]
  have hinv_pEmpty : pEmpty.total_invested = 0 := by
    simp [pEmpty, Portfolio.total_invested, List.filter]
  refine ⟨?_, ?_, ?_, ?_, ?_, ?_, ?_⟩
  · exact (check_new_position_order cfgSample pEmpty (1/200)).1 (by norm_num)
  · exact (check_new_position_order cfgSample pEmpty 60).2.1
      (by norm_num) (by norm_num [cfgSample])
  · exact (check_new_position_order cfgSample pFull 10).2.2.1
      (by norm_num) (by norm_num [cfgSample]) (by rw [hcount_pFull]; norm_num [cfgSample])
  · exact (check_new_position_order cfgSample pLoss 10).2.2.2.1
      (by norm_num) (by norm_num [cfgSample]) (by rw [hcount_pLoss]; norm_num [cfgSample])
      (by norm_num [pLoss, cfgSample])
  · exact (check_new_position_order cfgSample pBig 10).2.2.2.2.1
      (by norm_num) (by norm_num [cfgSample]) (by rw [hcount_pBig]; norm_num [cfgSample])
      (by norm_num [pBig, cfgSample]) (by rw [hinv_pBig]; norm_num [cfgSample])
  · exact (check_new_position_order cfgSample pEmpty 10).2.2.2.2.2.1
      (by norm_num) (by norm_num [cfgSample]) (by rw [hcount_pEmpty]; norm_num [cfgSample])
      (by norm_num [pEmpty, cfgSample]) (by rw [hinv_pEmpty]; norm_num [cfgSample])
  · exact (check_new_position_order cfgSample pFull 10).2.2.2.2.2.2
      (by rw [hcount_pFull]; norm_num [cfgSample]) (by norm_num) (by norm_num [cfgSample])

/-- C7: a paper-mode buy whose fetched ask-side price is non-positive
returns `none` and mutates no wallet state; otherwise it delegates to
`execute_buy` with share quantity `notional / price` at the fetched price,
and any returned response records that price and share quantity. -/
theorem paper_buy_price_guard (cache : PriceCache) (oracle : String → String → ℚ)
    (cid tid mn oc : String) (usdc : ℚ) (strat trid : String) (w : PaperWallet) :
    ((get_real_price cache oracle tid "BUY").1 ≤ 0 →
      paper_buy cache oracle cid tid mn oc usdc strat trid w
        = (none, w, (get_real_price cache oracle tid "BUY").2)) ∧
    (0 < (get_real_price cache oracle tid "BUY").1 →
      (paper_buy cache oracle cid tid mn oc usdc strat trid w).2.1
        = (w.execute_buy cid tid mn oc
            (usdc / (get_real_price cache oracle tid "BUY").1)
            (get_real_price cache oracle tid "BUY").1 strat trid).2 ∧
      (∀ r : ExecResponse,
        (paper_buy cache oracle cid tid mn oc usdc strat trid w).1 = some r →
        r.price = (get_real_price cache oracle tid "BUY").1 ∧
        r.shares = usdc / (get_real_price cache oracle tid "BUY").1)) := by
  unfold paper_buy
  by_cases h : (get_real_price cache oracle tid "BUY").1 ≤ 0
  · refine ⟨fun _ => by simp [h], fun hpos => absurd h (not_le.mpr hpos)⟩
  · refine ⟨fun hle => absurd hle h, fun _ => ?_⟩
    simp only [h, if_false]
    rcases hstep : w.execute_buy cid tid mn oc
        (usdc / (get_real_price cache oracle tid "BUY").1)
        (get_real_price cache oracle tid "BUY").1 strat trid with ⟨o, w2⟩
    cases o
    · simp [hstep]
    · simp [hstep]

/-- Witness for C7: at an oracle with no price (0) the buy fails without
mutation; at an oracle quoting 1/2 the wallet is exactly the one produced by
`execute_buy` of `10 / (1/2) = 20` shares at 1/2. -/
theorem paper_buy_price_guard_witness :
    paper_buy [] (fun _ _ => 0) "c" "t" "M" "YES" 10 "mm" "b1" defaultWallet
      = (none, defaultWallet, (get_real_price [] (fun _ _ => 0) "t" "BUY").2) ∧
    (paper_buy [] (fun _ _ => 1/2) "c" "t" "M" "YES" 10 "mm" "b1" defaultWallet).2.1
      = (defaultWallet.execute_buy "c" "t" "M" "YES"
          (10 / (get_real_price [] (fun _ _ => 1/2) "t" "BUY").1)
          (get_real_price [] (fun _ _ => 1/2) "t" "BUY").1 "mm" "b1").2 :=
  ⟨(paper_buy_price_guard [] (fun _ _ => 0) "c" "t" "M" "YES" 10 "mm" "b1" defaultWallet).1
      (by norm_num [get_real_price, lookupKey]),
    ((paper_buy_price_guard [] (fun _ _ => 1/2) "c" "t" "M" "YES" 10 "mm" "b1" defaultWallet).2
      (by norm_num [get_real_price, lookupKey])).1⟩

/-- C10: with both DRY_RUN and PAPER_TRADE true, `SmartExecutor.buy`, `sell`
and `place_limit` all take the log-only branch: a DRY_RUN-tagged result, no
price lookup (the cache and result are independent of the oracle), and an
unmutated paper wallet. -/
theorem dry_run_precedence (mode : TradingMode) (cache : PriceCache)
    (oracle : String → String → ℚ)
    (token_id cid mn oc pid side : String) (usdc price shares : ℚ)
    (strat trid : String) (w : PaperWallet) (lr1 lr2 lr3 : Option ExecResponse)
    (hdry : mode.DRY_RUN = true) (_hpaper : mode.PAPER_TRADE = true) :
    SmartExecutor.buy mode cache oracle token_id cid mn oc usdc strat trid w lr1
      = (some { status := "DRY_RUN", dry := true }, w, cache) ∧
    SmartExecutor.sell mode cache oracle pid token_id strat trid w lr2
      = (some { status := "DRY_RUN", dry := true }, w, cache) ∧
    SmartExecutor.place_limit mode cache side price shares w lr3
      = (some { status := "DRY_RUN", dry := true }, w, cache) := by
  unfold SmartExecutor.buy SmartExecutor.sell SmartExecutor.place_limit
  simp [hdry]

/-- Witness for C10 at a concrete wallet, oracle and call arguments. -/
theorem dry_run_precedence_witness :
    SmartExecutor.buy ⟨true, true⟩ [] (fun _ _ => 1) "t" "c" "M" "YES" 10 "mm" "b1"
        defaultWallet none
      = (some { status := "DRY_RUN", dry := true }, defaultWallet, []) ∧
    SmartExecutor.sell ⟨true, true⟩ [] (fun _ _ => 1) "c-t" "t" "mm" "s1"
        defaultWallet none
      = (some { status := "DRY_RUN", dry := true }, defaultWallet, []) ∧
    SmartExecutor.place_limit ⟨true, true⟩ [] "BUY" (1/2) 10 defaultWallet none
      = (some { status := "DRY_RUN", dry := true }, defaultWallet, []) :=
  dry_run_precedence ⟨true, true⟩ [] (fun _ _ => 1) "t" "c" "M" "YES" "c-t" "BUY"
    10 (1/2) 10 "mm" "b1" defaultWallet none none none rfl rfl

/-- Counterexample to C8: on a history with one small buy at 0.10, one large
buy at 0.90 and one sell at 0.60 on the same market, the source win rate is
100 (the unweighted mean buy price 0.50 is below 0.60) while the
volume-weighted reading of the claim gives 0 (the VWAP is about 0.892). -/
theorem win_rate_not_vwap :
    PaperWallet.win_rate w8Sample = 100 ∧ win_rate_spec_vwap w8Sample = 0 := by
  constructor
  · simp [PaperWallet.win_rate, w8Sample, List.filter, List.countP, List.countP.go]
    norm_num
  · simp [win_rate_spec_vwap, w8Sample, List.filter]
    norm_num

/-- C8 as amended: the win rate equals 100 times the fraction of SELL trades
whose execution price exceeds the UNWEIGHTED arithmetic mean of the prices
of the BUY trades recorded for the same market name (sells with no recorded
buy counting as losses), and 0 when there are no SELL trades. -/
theorem win_rate_eq_mean_spec (w : PaperWallet) :
    w.win_rate = win_rate_spec_mean w := by
  unfold PaperWallet.win_rate win_rate_spec_mean
  by_cases h : (w.trades.filter (fun t => t.side == "SELL")).isEmpty
  · simp [h]
  · simp [h, List.countP_eq_length_filter]
    ring

/-- C9 at the failing document: a document whose scalar fields parse but
whose first position record is malformed leaves the loaded balance (99), not
the default initial state, while the loader completes without raising. -/
theorem load_partial_state_on_parse_error :
    (defaultWallet.load (some badDoc)).balance = 99 ∧
    defaultWallet.load (some badDoc) ≠ defaultWallet := by
  have hb : (defaultWallet.load (some badDoc)).balance = 99 := by
    simp [PaperWallet.load, badDoc, loadPositionsLoop]
  refine ⟨hb, fun h => ?_⟩
  rw [h] at hb
  norm_num [defaultWallet, STARTING_BALANCE] at hb
